import Mathlib

/-!
A verification development for the LogTide Python SDK
(`logtide_sdk/client.py`, `logtide_sdk/circuit_breaker.py`,
`logtide_sdk/models.py`, `logtide_sdk/enums.py`).

The core pipeline — buffering, flush, retry with exponential backoff,
circuit breaker, metrics — is embedded shallowly:

* Python `time.time()` (float seconds) is modelled by an explicit clock of
  type `ℚ`; `time.sleep(d)` advances the clock by `d`.
* The HTTP transport `_send_logs` is modelled by a function
  `transport : Nat → Bool` giving the outcome (success / raises) of the
  n-th transport call; `transport_calls` counts the calls made.
* Exceptions become explicit result values (`LogResult`, `Option`).
* `threading.Lock` for the buffer is modelled explicitly as a
  `buffer_lock_held` flag, because `Lock` is non-reentrant: a `with`
  acquisition while the same thread already holds the lock blocks forever,
  which the model renders as `none` / `LogResult.deadlock`.
  The metrics and breaker locks have no sequential effect and are elided.
* `metadata` dictionaries become association lists `List (String × String)`
  (values are opaque to all the properties considered; strings stand in for
  arbitrary values). Python dict update `d[k] = v` is `dict_set`, and the
  merge `{**a, **b}` is `dict_merge a b`.
* `avg_latency_ms` (a float rolling average) is not modelled; no property
  here mentions it.
* `str(uuid.uuid4())` is modelled by an explicit `fresh_id` argument.
-/

namespace LogTide

/-- `enums.LogLevel`. -/
inductive LogLevel where
  | DEBUG
  | INFO
  | WARN
  | ERROR
  | CRITICAL
deriving DecidableEq, Repr

/-- `enums.CircuitState`. -/
inductive CircuitState where
  | CLOSED
  | OPEN
  | HALF_OPEN
deriving DecidableEq, Repr

/-- `models.LogEntry` (the `time` field is carried but never inspected by
the properties below; `__post_init__`'s timestamping is not modelled). -/
structure LogEntry where
  service : String
  level : LogLevel
  message : String
  time : Option String := none
  metadata : List (String × String) := []
  trace_id : Option String := none
deriving DecidableEq, Repr

/-- `models.ClientOptions`. -/
structure ClientOptions where
  api_url : String
  api_key : String
  batch_size : Nat := 100
  flush_interval : Nat := 5000
  max_buffer_size : Nat := 10000
  max_retries : Nat := 3
  retry_delay_ms : Nat := 1000
  circuit_breaker_threshold : Nat := 5
  circuit_breaker_reset_ms : ℚ := 30000
  enable_metrics : Bool := true
  debug_mode : Bool := false
  global_metadata : List (String × String) := []
  auto_trace_id : Bool := false
deriving DecidableEq, Repr

/-- `models.ClientMetrics` (without the float `avg_latency_ms`). -/
structure ClientMetrics where
  logs_sent : Nat := 0
  logs_dropped : Nat := 0
  errors : Nat := 0
  retries : Nat := 0
  circuit_breaker_trips : Nat := 0
deriving DecidableEq, Repr

/-- `circuit_breaker.CircuitBreaker`: the mutable triple guarded by its
lock, plus the two configuration fields.  `state` is the raw `_state`
attribute; the lazy-transition property read is `read_state` below. -/
structure CircuitBreaker where
  threshold : Nat
  reset_timeout_ms : ℚ
  state : CircuitState := CircuitState.CLOSED
  failure_count : Nat := 0
  last_failure_time : ℚ := 0
deriving DecidableEq, Repr

namespace CircuitBreaker

/-- `CircuitBreaker._check_half_open`: if currently OPEN and
`(now - last_failure_time) * 1000 ≥ reset_timeout_ms`, transition to
HALF_OPEN and reset the failure count. -/
def check_half_open (cb : CircuitBreaker) (now : ℚ) : CircuitBreaker :=
  if cb.state = CircuitState.OPEN then
    if (now - cb.last_failure_time) * 1000 ≥ cb.reset_timeout_ms then
      { cb with state := CircuitState.HALF_OPEN, failure_count := 0 }
    else cb
  else cb

/-- The `state` property: perform the lazy half-open check, then return the
state, together with the breaker as mutated by the check. -/
def read_state (cb : CircuitBreaker) (now : ℚ) : CircuitState × CircuitBreaker :=
  let cb := cb.check_half_open now
  (cb.state, cb)

/-- `CircuitBreaker.record_success`. -/
def record_success (cb : CircuitBreaker) : CircuitBreaker :=
  let cb := { cb with failure_count := 0 }
  if cb.state = CircuitState.HALF_OPEN then
    { cb with state := CircuitState.CLOSED }
  else cb

/-- `CircuitBreaker.record_failure` (the failure happens at time `now`). -/
def record_failure (cb : CircuitBreaker) (now : ℚ) : CircuitBreaker :=
  let cb := { cb with failure_count := cb.failure_count + 1, last_failure_time := now }
  if cb.failure_count ≥ cb.threshold then
    { cb with state := CircuitState.OPEN }
  else cb

/-- `CircuitBreaker.__init__`. -/
def init (threshold : Nat) (reset_timeout_ms : ℚ) : CircuitBreaker :=
  { threshold := threshold, reset_timeout_ms := reset_timeout_ms }

end CircuitBreaker

/-- Python dict assignment `d[k] = v` on an association list: if the key is
present, its value is updated in place; otherwise the pair is appended. -/
def dict_set (d : List (String × String)) (k : String) (v : String) :
    List (String × String) :=
  if d.any (fun p => p.1 = k) then
    d.map (fun p => if p.1 = k then (k, v) else p)
  else d ++ [(k, v)]

/-- Python dict merge `{**a, **b}`: start from `a` and assign every pair of
`b` in order. -/
def dict_merge (a b : List (String × String)) : List (String × String) :=
  b.foldl (fun d p => dict_set d p.1 p.2) a

/-- Python dict lookup `d.get(k)` on an association list: the value of the
first pair with the given key. -/
def dict_get (d : List (String × String)) (k : String) : Option String :=
  match d with
  | [] => none
  | p :: rest => if p.1 = k then some p.2 else dict_get rest k

/-- Result of a `LogTideClient.log` call.  `buffer_full_error` is the raised
`BufferFullError`; `deadlock` marks the thread blocking forever on a
non-reentrant lock acquisition. -/
inductive LogResult where
  | ok
  | buffer_full_error
  | deadlock
deriving DecidableEq, Repr

/-- `client.LogTideClient`: the mutable state of a client, together with the
bookkeeping of the execution model (clock `now`, recorded `sleeps`,
`transport_calls` counter, explicit buffer-lock flag). -/
structure LogTideClient where
  options : ClientOptions
  buffer : List LogEntry := []
  trace_id : Option String := none
  metrics : ClientMetrics := {}
  circuit_breaker : CircuitBreaker
  closed : Bool := false
  flush_timer_active : Bool := false
  buffer_lock_held : Bool := false
  now : ℚ := 0
  sleeps : List ℚ := []
  transport_calls : Nat := 0
deriving DecidableEq, Repr

namespace LogTideClient

/-- `LogTideClient.__init__` (the `atexit` hook is outside the model). -/
def init (options : ClientOptions) : LogTideClient :=
  { options := options
    circuit_breaker :=
      CircuitBreaker.init options.circuit_breaker_threshold
        options.circuit_breaker_reset_ms
    flush_timer_active := decide (options.flush_interval > 0) }

/-- The trailing lines of `_send_logs_with_retry`: after the loop exits
(without returning), read the breaker state once more and count a trip if
it is OPEN. -/
def send_retry_finish (c : LogTideClient) : LogTideClient :=
  let sr := c.circuit_breaker.read_state c.now
  let c := { c with circuit_breaker := sr.2 }
  if sr.1 = CircuitState.OPEN then
    { c with metrics :=
        { c.metrics with circuit_breaker_trips := c.metrics.circuit_breaker_trips + 1 } }
  else c

/-- The `while attempt <= self.options.max_retries` loop of
`_send_logs_with_retry`, for a batch of `logsLen` entries.
One iteration: read the breaker state; if OPEN, count the whole batch as
dropped and break (the raised `CircuitBreakerOpenError` is caught by the
dedicated handler, which neither retries nor touches `attempt`); otherwise
call the transport.  On success record breaker success, count the batch as
sent, and return (skipping the trailing trip check).  On failure increment
`attempt`, record breaker failure, count an error, count a retry when more
attempts remain, and either give up (count the batch dropped, break) or
sleep `delay` seconds and loop with the delay doubled. -/
def send_retry_loop (opts : ClientOptions) (transport : Nat → Bool)
    (logsLen : Nat) (attempt : Nat) (delay : ℚ) (c : LogTideClient) :
    LogTideClient :=
  if attempt ≤ opts.max_retries then
    let sr := c.circuit_breaker.read_state c.now
    let c1 := { c with circuit_breaker := sr.2 }
    if sr.1 = CircuitState.OPEN then
      send_retry_finish
        { c1 with metrics :=
            { c1.metrics with logs_dropped := c1.metrics.logs_dropped + logsLen } }
    else if transport c1.transport_calls then
      { c1 with
        transport_calls := c1.transport_calls + 1
        circuit_breaker := c1.circuit_breaker.record_success
        metrics := { c1.metrics with logs_sent := c1.metrics.logs_sent + logsLen } }
    else
      let c2 := { c1 with
        transport_calls := c1.transport_calls + 1
        circuit_breaker := c1.circuit_breaker.record_failure c1.now }
      let m := { c2.metrics with errors := c2.metrics.errors + 1 }
      let m := if attempt + 1 ≤ opts.max_retries then
        { m with retries := m.retries + 1 } else m
      let c3 := { c2 with metrics := m }
      if attempt + 1 > opts.max_retries then
        send_retry_finish
          { c3 with metrics :=
              { c3.metrics with logs_dropped := c3.metrics.logs_dropped + logsLen } }
      else
        send_retry_loop opts transport logsLen (attempt + 1) (delay * 2)
          { c3 with now := c3.now + delay, sleeps := c3.sleeps ++ [delay] }
  else
    send_retry_finish c
termination_by opts.max_retries + 1 - attempt
decreasing_by omega

/-- `LogTideClient._send_logs_with_retry` for a batch `logs`:
run the retry loop from `attempt = 0` with the base delay
`retry_delay_ms / 1000` seconds. -/
def send_logs_with_retry (transport : Nat → Bool) (logs : List LogEntry)
    (c : LogTideClient) : LogTideClient :=
  send_retry_loop c.options transport logs.length 0
    ((c.options.retry_delay_ms : ℚ) / 1000) c

/-- `LogTideClient.flush`: no-op when closed; otherwise acquire the buffer
lock (`none` models blocking forever when the calling thread already holds
this non-reentrant lock), snapshot and clear the buffer, release the lock,
and send the snapshot through the retry pipeline. -/
def flush (transport : Nat → Bool) (c : LogTideClient) : Option LogTideClient :=
  if c.closed then some c
  else if c.buffer_lock_held then none
  else
    let c1 := { c with buffer_lock_held := true }
    if c1.buffer.isEmpty then some { c1 with buffer_lock_held := false }
    else
      let logs := c1.buffer
      let c2 := { c1 with buffer := [], buffer_lock_held := false }
      some (send_logs_with_retry transport logs c2)

/-- The trace-id block at the top of `LogTideClient.log`: when the entry
has no trace id, attach a fresh uuid if `auto_trace_id` is set, else the
client's current trace id if any. -/
def attach_trace_id (c : LogTideClient) (fresh_id : String) (e : LogEntry) :
    LogEntry :=
  if e.trace_id = none then
    if c.options.auto_trace_id then { e with trace_id := some fresh_id }
    else
      match c.trace_id with
      | some t => { e with trace_id := some t }
      | none => e
  else e

/-- The entry preprocessing at the top of `LogTideClient.log`: the trace-id
block, then the merge of `global_metadata` under the entry's own metadata
(performed only when `global_metadata` is truthy, i.e. non-empty). -/
def prepare_entry (c : LogTideClient) (fresh_id : String) (e : LogEntry) :
    LogEntry :=
  let e := attach_trace_id c fresh_id e
  if c.options.global_metadata.isEmpty then e
  else { e with metadata := dict_merge c.options.global_metadata e.metadata }

/-- `LogTideClient.log`: return silently when closed; otherwise preprocess
the entry, acquire the buffer lock, reject with `BufferFullError` (counting
a drop) when the buffer is at capacity, else append the entry, and when the
batch size is reached call `flush` — which re-acquires the buffer lock the
thread is still holding, hence the `deadlock` outcome of that branch. -/
def log (transport : Nat → Bool) (fresh_id : String) (e : LogEntry)
    (c : LogTideClient) : LogResult × LogTideClient :=
  if c.closed then (LogResult.ok, c)
  else
    let e := prepare_entry c fresh_id e
    if c.buffer_lock_held then (LogResult.deadlock, c)
    else
      let c1 := { c with buffer_lock_held := true }
      if c1.buffer.length ≥ c1.options.max_buffer_size then
        (LogResult.buffer_full_error,
         { c1 with
           buffer_lock_held := false
           metrics := { c1.metrics with logs_dropped := c1.metrics.logs_dropped + 1 } })
      else
        let c2 := { c1 with buffer := c1.buffer ++ [e] }
        if c2.buffer.length ≥ c2.options.batch_size then
          match c2.flush transport with
          | none => (LogResult.deadlock, c2)
          | some c3 => (LogResult.ok, { c3 with buffer_lock_held := false })
        else (LogResult.ok, { c2 with buffer_lock_held := false })

/-- `LogTideClient.close`: no-op when already closed; otherwise set the
closed flag, cancel the flush timer, and call `flush`. -/
def close (transport : Nat → Bool) (c : LogTideClient) : Option LogTideClient :=
  if c.closed then some c
  else
    let c1 := { c with closed := true, flush_timer_active := false }
    c1.flush transport

/-- `LogTideClient.set_trace_id` (`_normalize_trace_id` is the identity). -/
def set_trace_id (tid : Option String) (c : LogTideClient) : LogTideClient :=
  match tid with
  | some t => { c with trace_id := some t }
  | none => { c with trace_id := none }

/-- `LogTideClient.with_trace_id` as a context manager run to completion:
save the current trace id, set the new one, run the body (which returns the
mutated client and whether it raised), and restore the saved id on either
exit path. -/
def with_trace_id (tid : String) (body : LogTideClient → LogTideClient × Bool)
    (c : LogTideClient) : LogTideClient × Bool :=
  let old := c.trace_id
  let c1 := c.set_trace_id (some tid)
  let r := body c1
  ({ r.1 with trace_id := old }, r.2)

/-- `LogTideClient.debug`. -/
def debug_log (transport : Nat → Bool) (fresh_id : String)
    (service message : String) (metadata : List (String × String))
    (c : LogTideClient) : LogResult × LogTideClient :=
  c.log transport fresh_id
    { service := service, level := LogLevel.DEBUG, message := message,
      metadata := metadata }

/-- `LogTideClient.info`. -/
def info (transport : Nat → Bool) (fresh_id : String)
    (service message : String) (metadata : List (String × String))
    (c : LogTideClient) : LogResult × LogTideClient :=
  c.log transport fresh_id
    { service := service, level := LogLevel.INFO, message := message,
      metadata := metadata }

/-- `LogTideClient.warn`. -/
def warn (transport : Nat → Bool) (fresh_id : String)
    (service message : String) (metadata : List (String × String))
    (c : LogTideClient) : LogResult × LogTideClient :=
  c.log transport fresh_id
    { service := service, level := LogLevel.WARN, message := message,
      metadata := metadata }

/-- `LogTideClient.error` (`metadata` is the dictionary produced by
`_process_metadata_or_error`, which itself performs no client mutation). -/
def error_log (transport : Nat → Bool) (fresh_id : String)
    (service message : String) (metadata : List (String × String))
    (c : LogTideClient) : LogResult × LogTideClient :=
  c.log transport fresh_id
    { service := service, level := LogLevel.ERROR, message := message,
      metadata := metadata }

/-- `LogTideClient.critical` (same convention as `error_log`). -/
def critical (transport : Nat → Bool) (fresh_id : String)
    (service message : String) (metadata : List (String × String))
    (c : LogTideClient) : LogResult × LogTideClient :=
  c.log transport fresh_id
    { service := service, level := LogLevel.CRITICAL, message := message,
      metadata := metadata }

end LogTideClient

/-! ### Concrete fixtures -/

/-- A sample log entry. -/
def demo_entry : LogEntry :=
  { service := "svc", level := LogLevel.INFO, message := "hello" }

/-- A sample configuration with the default knobs. -/
def demo_options : ClientOptions :=
  { api_url := "http://localhost:8080", api_key := "key" }

/-- A freshly initialized client. -/
def demo_client : LogTideClient := LogTideClient.init demo_options

/-- A transport that succeeds on every call. -/
def ok_transport : Nat → Bool := fun _ => true

/-- A transport that fails on every call. -/
def failing_transport : Nat → Bool := fun _ => false

/-- A configuration carrying global metadata. -/
def demo_meta_options : ClientOptions :=
  { demo_options with global_metadata := [("env", "prod"), ("k", "g")] }

/-- A client configured with `demo_meta_options`. -/
def demo_meta_client : LogTideClient := LogTideClient.init demo_meta_options

/-- An entry whose own metadata collides with a global key. -/
def demo_meta_entry : LogEntry := { demo_entry with metadata := [("k", "e")] }

/-- A configuration with `max_retries = 2`, base delay 100 ms, and a
breaker threshold too high to ever open during one drain. -/
def demo_fail_options : ClientOptions :=
  { demo_options with
      max_retries := 2
      retry_delay_ms := 100
      circuit_breaker_threshold := 50 }

/-- A client configured with `demo_fail_options`. -/
def demo_fail_client : LogTideClient := LogTideClient.init demo_fail_options

/-- A breaker that is OPEN with a fresh failure, far from its reset
timeout. -/
def demo_open_breaker : CircuitBreaker :=
  { threshold := 2, reset_timeout_ms := 30000,
    state := CircuitState.OPEN, failure_count := 2 }

/-- A client whose breaker currently reads OPEN. -/
def demo_open_client : LogTideClient :=
  { demo_client with circuit_breaker := demo_open_breaker }

/-! ### Theorems -/

/-- Iterating `record_failure` (all at time `now`) from a breaker whose
failure count is 0 and whose state is not OPEN: the count tracks the number
of failures, and the state flips to OPEN exactly when the count reaches the
threshold. -/
theorem record_failure_iter_spec (now : ℚ) (cb : CircuitBreaker) (n : Nat)
    (hfc : cb.failure_count = 0) :
    ((fun b => CircuitBreaker.record_failure b now)^[n] cb).failure_count = n ∧
    ((fun b => CircuitBreaker.record_failure b now)^[n] cb).threshold
      = cb.threshold ∧
    ((fun b => CircuitBreaker.record_failure b now)^[n] cb).reset_timeout_ms
      = cb.reset_timeout_ms ∧
    ((fun b => CircuitBreaker.record_failure b now)^[n] cb).state
      = (if n = 0 then cb.state
         else if cb.threshold ≤ n then CircuitState.OPEN else cb.state) ∧
    ((fun b => CircuitBreaker.record_failure b now)^[n] cb).last_failure_time
      = (if n = 0 then cb.last_failure_time else now) := by
  induction n with
  | zero => simp [hfc]
  | succ n ih =>
    obtain ⟨ih1, ih2, ih3, ih4, ih5⟩ := ih
    rw [Function.iterate_succ_apply']
    revert ih1 ih2 ih3 ih4 ih5
    generalize (fun b => CircuitBreaker.record_failure b now)^[n] cb = B
    intro ih1 ih2 ih3 ih4 ih5
    simp only [CircuitBreaker.record_failure, ih1, ih2]
    by_cases hth : cb.threshold ≤ n + 1
    · simp [hth, ih3]
    · have hth' : ¬ cb.threshold ≤ n := by omega
      simp only [hth, if_false, ih3, ih4]
      rcases Nat.eq_zero_or_pos n with hn | hn
      · simp [hn]
      · have hn' : ¬ n = 0 := by omega
        simp [hn', hth']

/-- Looking up in a concatenation scans the left list first. -/
theorem dict_get_append (a b : List (String × String)) (k : String) :
    dict_get (a ++ b) k
      = match dict_get a k with
        | some v => some v
        | none => dict_get b k := by
  induction a with
  | nil => simp [dict_get]
  | cons p rest ih =>
    by_cases h : p.1 = k <;> simp [dict_get, h, ih]

/-- A key that is absent from the key list is not found. -/
theorem dict_get_eq_none_of_not_mem (d : List (String × String)) (k : String)
    (h : k ∉ d.map Prod.fst) : dict_get d k = none := by
  induction d with
  | nil => rfl
  | cons p rest ih =>
    simp only [List.map_cons, List.mem_cons] at h
    push_neg at h
    have hne : p.1 ≠ k := fun he => h.1 he.symm
    simp [dict_get, hne, ih h.2]

/-- The in-place update performed by `dict_set` when the key is present
does not disturb lookups of other keys. -/
theorem dict_get_map_upd_ne (d : List (String × String)) (k v k' : String)
    (h : k' ≠ k) :
    dict_get (d.map (fun p => if p.1 = k then (k, v) else p)) k'
      = dict_get d k' := by
  induction d with
  | nil => rfl
  | cons p rest ih =>
    by_cases hp : p.1 = k
    · simp [dict_get, hp, Ne.symm h, ih]
    · simp only [List.map_cons, hp, if_false]
      by_cases hp' : p.1 = k'
      · simp [dict_get, hp']
      · simp [dict_get, hp', ih]

/-- The in-place update performed by `dict_set` makes the updated key map
to the new value, provided the key occurs. -/
theorem dict_get_map_upd_self (d : List (String × String)) (k v : String)
    (h : d.any (fun p => p.1 = k) = true) :
    dict_get (d.map (fun p => if p.1 = k then (k, v) else p)) k = some v := by
  induction d with
  | nil => simp at h
  | cons p rest ih =>
    by_cases hp : p.1 = k
    · simp [dict_get, hp]
    · simp only [List.any_cons, Bool.or_eq_true, decide_eq_true_eq] at h
      rcases h with h | h
      · exact absurd h hp
      · simp [dict_get, hp, ih h]

/-- Lookup after a Python dict assignment: the assigned key now maps to the
new value, all other keys are untouched. -/
theorem dict_get_dict_set (d : List (String × String)) (k v k' : String) :
    dict_get (dict_set d k v) k'
      = if k' = k then some v else dict_get d k' := by
  unfold dict_set
  by_cases hmem : d.any (fun p => p.1 = k) = true
  · rw [if_pos hmem]
    by_cases hk : k' = k
    · subst hk; simp [dict_get_map_upd_self d k' v hmem]
    · simp [hk, dict_get_map_upd_ne d k v k' hk]
  · rw [if_neg hmem]
    rw [dict_get_append]
    have hnone : dict_get d k = none := by
      apply dict_get_eq_none_of_not_mem
      intro hmm
      apply hmem
      rw [List.any_eq_true]
      obtain ⟨p, hp, hpk⟩ := List.mem_map.mp hmm
      exact ⟨p, hp, by simp [hpk]⟩
    by_cases hk : k' = k
    · subst hk; simp [hnone, dict_get]
    · simp only [hk, if_false]
      cases hd : dict_get d k' with
      | some v' => simp
      | none => simp [dict_get, Ne.symm hk]

/-- Lookup in the Python dict merge `{**a, **b}`, for `b` with no duplicate
keys: a key found in `b` takes `b`'s value, otherwise `a` is consulted. -/
theorem dict_get_dict_merge (a b : List (String × String)) (k : String)
    (hb : (b.map Prod.fst).Nodup) :
    dict_get (dict_merge a b) k
      = match dict_get b k with
        | some v => some v
        | none => dict_get a k := by
  induction b generalizing a with
  | nil => simp [dict_merge, dict_get]
  | cons p bs ih =>
    simp only [List.map_cons, List.nodup_cons] at hb
    have step : dict_merge a (p :: bs) = dict_merge (dict_set a p.1 p.2) bs := by
      simp [dict_merge]
    rw [step, ih _ hb.2]
    by_cases hk : p.1 = k
    · subst hk
      have hbs : dict_get bs p.1 = none :=
        dict_get_eq_none_of_not_mem bs p.1 hb.1
      simp [dict_get, hbs, dict_get_dict_set]
    · have hk' : k ≠ p.1 := Ne.symm hk
      simp only [dict_get, hk, if_false]
      cases hbk : dict_get bs k with
      | some v => simp
      | none => simp [dict_get_dict_set, hk']

/-- The trace-id block never touches the metadata. -/
theorem attach_trace_id_metadata (c : LogTideClient) (fresh_id : String)
    (e : LogEntry) :
    (LogTideClient.attach_trace_id c fresh_id e).metadata = e.metadata := by
  unfold LogTideClient.attach_trace_id
  split
  · split
    · rfl
    · split <;> rfl
  · rfl

/-- The metadata of the entry enqueued by `log`: the trace-id step never
touches metadata, so it is the entry's own metadata when `global_metadata`
is empty, and the merge `{**global_metadata, **entry.metadata}` otherwise. -/
theorem prepare_entry_metadata (c : LogTideClient) (fresh_id : String)
    (e : LogEntry) :
    (c.prepare_entry fresh_id e).metadata
      = if c.options.global_metadata.isEmpty then e.metadata
        else dict_merge c.options.global_metadata e.metadata := by
  unfold LogTideClient.prepare_entry
  by_cases hg : c.options.global_metadata.isEmpty
  · simp [hg, attach_trace_id_metadata]
  · simp [hg, attach_trace_id_metadata]

/-- C8: for every logged entry (whose metadata, coming from a Python dict,
has no duplicate keys), the metadata of the entry prepared for enqueueing
is `global_metadata` overlaid by the entry's own metadata: a key set in the
entry keeps the entry's value (entry wins on collision), a global key
absent from the entry appears with its global value, and keys in neither
are absent. -/
theorem global_metadata_merge (c : LogTideClient) (fresh_id : String)
    (e : LogEntry) (k v : String)
    (hnd : (e.metadata.map Prod.fst).Nodup) :
    (dict_get e.metadata k = some v →
      dict_get (c.prepare_entry fresh_id e).metadata k = some v) ∧
    (dict_get e.metadata k = none →
      dict_get c.options.global_metadata k = some v →
        dict_get (c.prepare_entry fresh_id e).metadata k = some v) ∧
    (dict_get e.metadata k = none →
      dict_get c.options.global_metadata k = none →
        dict_get (c.prepare_entry fresh_id e).metadata k = none) := by
  have hm := prepare_entry_metadata c fresh_id e
  refine ⟨?_, ?_, ?_⟩
  · intro h1
    rw [hm]
    by_cases hg : c.options.global_metadata.isEmpty
    · simp [hg, h1]
    · simp [hg, dict_get_dict_merge _ _ _ hnd, h1]
  · intro h1 h2
    rw [hm]
    by_cases hg : c.options.global_metadata.isEmpty
    · rw [List.isEmpty_iff] at hg
      rw [hg] at h2
      simp [dict_get] at h2
    · simp [hg, dict_get_dict_merge _ _ _ hnd, h1, h2]
  · intro h1 h2
    rw [hm]
    by_cases hg : c.options.global_metadata.isEmpty
    · simp [hg, h1]
    · simp [hg, dict_get_dict_merge _ _ _ hnd, h1, h2]

/-- C8 witness: with `global_metadata = [("env","prod"), ("k","g")]` and an
entry carrying `[("k","e")]`, the prepared metadata maps `"k"` to the
entry's `"e"` (entry wins) and `"env"` to the global `"prod"`. -/
theorem global_metadata_merge_witness :
    (((demo_meta_entry.metadata.map Prod.fst).Nodup ∧
      dict_get demo_meta_entry.metadata "k" = some "e") ∧
     (dict_get demo_meta_entry.metadata "env" = none ∧
      dict_get demo_meta_client.options.global_metadata "env" = some "prod")) ∧
    dict_get (demo_meta_client.prepare_entry "id" demo_meta_entry).metadata "k"
      = some "e" ∧
    dict_get (demo_meta_client.prepare_entry "id" demo_meta_entry).metadata "env"
      = some "prod" :=
  ⟨⟨⟨by decide, by decide⟩, ⟨by decide, by decide⟩⟩,
   (global_metadata_merge demo_meta_client "id" demo_meta_entry "k" "e"
      (by decide)).1 (by decide),
   (global_metadata_merge demo_meta_client "id" demo_meta_entry "env" "prod"
      (by decide)).2.1 (by decide) (by decide)⟩

/-- C4: the circuit breaker invariants.  `record_success` always resets the
failure count (and never produces OPEN or HALF_OPEN out of nowhere); the
lazy check transitions OPEN→HALF_OPEN only when
`(now - last_failure_time) * 1000 ≥ reset_timeout_ms`, resetting the count;
`record_failure` moves a non-OPEN breaker to OPEN only when the incremented
count reaches the threshold; a success in HALF_OPEN closes the breaker.
Finally the spec scenario: `t ≥ 1` failures from a fresh breaker make the
state read OPEN (a read before the timeout still says OPEN), a read after
the reset timeout elapses says HALF_OPEN with the count reset to 0, and one
`record_success` there yields CLOSED. -/
theorem circuit_breaker_state_invariants :
    (∀ cb : CircuitBreaker, (cb.record_success).failure_count = 0) ∧
    (∀ cb : CircuitBreaker, (cb.record_success).state = CircuitState.OPEN →
      cb.state = CircuitState.OPEN) ∧
    (∀ cb : CircuitBreaker, (cb.record_success).state ≠ CircuitState.HALF_OPEN) ∧
    (∀ (cb : CircuitBreaker) (now : ℚ),
      (cb.check_half_open now).state = CircuitState.OPEN →
        cb.state = CircuitState.OPEN) ∧
    (∀ (cb : CircuitBreaker) (now : ℚ), cb.state = CircuitState.OPEN →
      (cb.check_half_open now).state = CircuitState.HALF_OPEN →
        (now - cb.last_failure_time) * 1000 ≥ cb.reset_timeout_ms ∧
        (cb.check_half_open now).failure_count = 0) ∧
    (∀ (cb : CircuitBreaker) (now : ℚ),
      (cb.record_failure now).state = CircuitState.HALF_OPEN →
        cb.state = CircuitState.HALF_OPEN) ∧
    (∀ (cb : CircuitBreaker) (now : ℚ), cb.state ≠ CircuitState.OPEN →
      (cb.record_failure now).state = CircuitState.OPEN →
        cb.threshold ≤ cb.failure_count + 1) ∧
    (∀ cb : CircuitBreaker, cb.state = CircuitState.HALF_OPEN →
      (cb.record_success).state = CircuitState.CLOSED) ∧
    (∀ (t : Nat) (T now later : ℚ), 1 ≤ t → 0 < T →
      (later - now) * 1000 ≥ T →
      (((fun b => CircuitBreaker.record_failure b now)^[t]
          (CircuitBreaker.init t T)).read_state now).1 = CircuitState.OPEN ∧
      (((fun b => CircuitBreaker.record_failure b now)^[t]
          (CircuitBreaker.init t T)).read_state later).1
        = CircuitState.HALF_OPEN ∧
      (((fun b => CircuitBreaker.record_failure b now)^[t]
          (CircuitBreaker.init t T)).read_state later).2.failure_count = 0 ∧
      ((((fun b => CircuitBreaker.record_failure b now)^[t]
          (CircuitBreaker.init t T)).read_state later).2.record_success).state
        = CircuitState.CLOSED) := by
  refine ⟨?_, ?_, ?_, ?_, ?_, ?_, ?_, ?_, ?_⟩
  · intro cb
    simp only [CircuitBreaker.record_success]
    split <;> rfl
  · intro cb h
    simp only [CircuitBreaker.record_success] at h
    split at h <;> simp_all
  · intro cb h
    simp only [CircuitBreaker.record_success] at h
    split at h <;> simp_all
  · intro cb now h
    simp only [CircuitBreaker.check_half_open] at h
    split at h <;> [skip; exact h]
    split at h <;> simp_all
  · intro cb now hopen h
    simp only [CircuitBreaker.check_half_open, hopen, if_true] at h ⊢
    split at h <;> simp_all
  · intro cb now h
    simp only [CircuitBreaker.record_failure] at h
    split at h <;> simp_all
  · intro cb now hne h
    simp only [CircuitBreaker.record_failure] at h
    split at h <;> simp_all
  · intro cb h
    simp [CircuitBreaker.record_success, h]
  · intro t T now later ht hT helapsed
    have hspec := record_failure_iter_spec now (CircuitBreaker.init t T) t rfl
    have hne : ¬ t = 0 := by omega
    revert hspec
    generalize (fun b => CircuitBreaker.record_failure b now)^[t]
      (CircuitBreaker.init t T) = B
    intro hspec
    obtain ⟨h1, h2, h3, h4, h5⟩ := hspec
    simp only [CircuitBreaker.init, hne, if_false, le_refl, if_true]
      at h2 h3 h4 h5
    have hnow : ¬ (now - B.last_failure_time) * 1000 ≥ B.reset_timeout_ms := by
      rw [h5, h3]; simp; linarith
    have hlater : (later - B.last_failure_time) * 1000 ≥ B.reset_timeout_ms := by
      rw [h5, h3]; exact helapsed
    refine ⟨?_, ?_, ?_, ?_⟩
    · simp [CircuitBreaker.read_state, CircuitBreaker.check_half_open, h4,
        hnow]
    · simp [CircuitBreaker.read_state, CircuitBreaker.check_half_open, h4,
        hlater]
    · simp [CircuitBreaker.read_state, CircuitBreaker.check_half_open, h4,
        hlater]
    · simp [CircuitBreaker.read_state, CircuitBreaker.check_half_open, h4,
        hlater, CircuitBreaker.record_success]

/-- C4 witness: threshold 2, reset timeout 30000 ms, failures at time 0,
read at time 30 (seconds): `(30 - 0) * 1000 = 30000 ≥ 30000`. -/
theorem circuit_breaker_state_invariants_witness :
    ((1 : Nat) ≤ 2 ∧ (0 : ℚ) < 30000 ∧ ((30 : ℚ) - 0) * 1000 ≥ 30000) ∧
    (((fun b => CircuitBreaker.record_failure b 0)^[2]
        (CircuitBreaker.init 2 30000)).read_state 30).1
      = CircuitState.HALF_OPEN :=
  ⟨⟨by norm_num, by norm_num, by norm_num⟩,
   (circuit_breaker_state_invariants.2.2.2.2.2.2.2.2 2 30000 0 30
      (by norm_num) (by norm_num) (by norm_num)).2.1⟩

/-- C10: a breaker sitting in HALF_OPEN with its failure count reset to 0
(as the lazy OPEN→HALF_OPEN transition leaves it) and threshold `t ≥ 2`
does not re-open on a single `record_failure` — it stays HALF_OPEN — and
more generally `k` further failures leave it HALF_OPEN for every `k < t`,
re-opening exactly when the count reaches `t`. -/
theorem half_open_reopens_only_at_threshold (cb : CircuitBreaker) (now : ℚ)
    (k : Nat) (hs : cb.state = CircuitState.HALF_OPEN)
    (hf : cb.failure_count = 0) (ht : 2 ≤ cb.threshold) :
    (cb.record_failure now).state = CircuitState.HALF_OPEN ∧
    (k < cb.threshold →
      ((fun b => CircuitBreaker.record_failure b now)^[k] cb).state
        = CircuitState.HALF_OPEN) ∧
    (cb.threshold ≤ k →
      ((fun b => CircuitBreaker.record_failure b now)^[k] cb).state
        = CircuitState.OPEN) := by
  obtain ⟨h1, h2, h3, h4, h5⟩ := record_failure_iter_spec now cb k hf
  refine ⟨?_, ?_, ?_⟩
  · have hth : ¬ cb.threshold ≤ 0 + 1 := by omega
    simp [CircuitBreaker.record_failure, hf, hth, hs]
  · intro hk
    rw [h4]
    have : ¬ cb.threshold ≤ k := by omega
    simp [this, hs]
  · intro hk
    have hkne : ¬ k = 0 := by omega
    rw [h4]
    simp [hkne, hk]

/-- C10 witness: threshold 2, one failure from HALF_OPEN stays HALF_OPEN. -/
theorem half_open_reopens_only_at_threshold_witness :
    (({ threshold := 2, reset_timeout_ms := 30000,
        state := CircuitState.HALF_OPEN } : CircuitBreaker).record_failure
          5).state = CircuitState.HALF_OPEN :=
  (half_open_reopens_only_at_threshold
    { threshold := 2, reset_timeout_ms := 30000,
      state := CircuitState.HALF_OPEN } 5 1 rfl rfl (by norm_num)).1

/-- The lazy half-open check is the identity on a breaker that is not
OPEN. -/
theorem check_half_open_of_ne_open (cb : CircuitBreaker) (now : ℚ)
    (h : cb.state ≠ CircuitState.OPEN) : cb.check_half_open now = cb := by
  unfold CircuitBreaker.check_half_open
  rw [if_neg h]

/-- If the lazy half-open check leaves the state OPEN, it did nothing: the
breaker was OPEN already and the reset timeout had not elapsed. -/
theorem check_half_open_eq_self_of_open (cb : CircuitBreaker) (now : ℚ)
    (h : (cb.check_half_open now).state = CircuitState.OPEN) :
    cb.check_half_open now = cb := by
  by_cases h1 : cb.state = CircuitState.OPEN
  · by_cases h2 : (now - cb.last_failure_time) * 1000 ≥ cb.reset_timeout_ms
    · exfalso
      unfold CircuitBreaker.check_half_open at h
      rw [if_pos h1, if_pos h2] at h
      simp at h
    · unfold CircuitBreaker.check_half_open
      rw [if_pos h1, if_neg h2]
  · exact check_half_open_of_ne_open cb now h1

/-- C2: a non-empty batch handed to the retry pipeline while the breaker
state reads OPEN is dropped whole, immediately: `logs_dropped` grows by the
batch size, `circuit_breaker_trips` by exactly 1, and the transport-call
count, `retries`, `errors` and `logs_sent` are all unchanged.  The first
conjunct states this for the loop entered at any `attempt ≤ max_retries`
(so in particular a breaker found OPEN mid-retry-loop aborts the loop
without a further retry attempt); the second instantiates it for
`_send_logs_with_retry` itself (`attempt = 0`). -/
theorem circuit_open_drops_batch (transport : Nat → Bool)
    (logs : List LogEntry) (c : LogTideClient)
    (hopen : (c.circuit_breaker.read_state c.now).1 = CircuitState.OPEN)
    (_hlen : 0 < logs.length) :
    (∀ (opts : ClientOptions) (attempt : Nat) (delay : ℚ),
      attempt ≤ opts.max_retries →
      (LogTideClient.send_retry_loop opts transport logs.length attempt delay
          c).metrics.logs_dropped = c.metrics.logs_dropped + logs.length ∧
      (LogTideClient.send_retry_loop opts transport logs.length attempt delay
          c).metrics.circuit_breaker_trips
        = c.metrics.circuit_breaker_trips + 1 ∧
      (LogTideClient.send_retry_loop opts transport logs.length attempt delay
          c).transport_calls = c.transport_calls ∧
      (LogTideClient.send_retry_loop opts transport logs.length attempt delay
          c).metrics.retries = c.metrics.retries ∧
      (LogTideClient.send_retry_loop opts transport logs.length attempt delay
          c).metrics.errors = c.metrics.errors ∧
      (LogTideClient.send_retry_loop opts transport logs.length attempt delay
          c).metrics.logs_sent = c.metrics.logs_sent) ∧
    ((c.send_logs_with_retry transport logs).metrics.logs_dropped
        = c.metrics.logs_dropped + logs.length ∧
      (c.send_logs_with_retry transport logs).metrics.circuit_breaker_trips
        = c.metrics.circuit_breaker_trips + 1 ∧
      (c.send_logs_with_retry transport logs).transport_calls
        = c.transport_calls ∧
      (c.send_logs_with_retry transport logs).metrics.retries
        = c.metrics.retries ∧
      (c.send_logs_with_retry transport logs).metrics.errors
        = c.metrics.errors ∧
      (c.send_logs_with_retry transport logs).metrics.logs_sent
        = c.metrics.logs_sent) := by
  have hchk : c.circuit_breaker.check_half_open c.now = c.circuit_breaker :=
    check_half_open_eq_self_of_open _ _
      (by simpa [CircuitBreaker.read_state] using hopen)
  have hst : c.circuit_breaker.state = CircuitState.OPEN := by
    simpa [CircuitBreaker.read_state, hchk] using hopen
  have main : ∀ (opts : ClientOptions) (attempt : Nat) (delay : ℚ),
      attempt ≤ opts.max_retries →
      (LogTideClient.send_retry_loop opts transport logs.length attempt delay
          c).metrics.logs_dropped = c.metrics.logs_dropped + logs.length ∧
      (LogTideClient.send_retry_loop opts transport logs.length attempt delay
          c).metrics.circuit_breaker_trips
        = c.metrics.circuit_breaker_trips + 1 ∧
      (LogTideClient.send_retry_loop opts transport logs.length attempt delay
          c).transport_calls = c.transport_calls ∧
      (LogTideClient.send_retry_loop opts transport logs.length attempt delay
          c).metrics.retries = c.metrics.retries ∧
      (LogTideClient.send_retry_loop opts transport logs.length attempt delay
          c).metrics.errors = c.metrics.errors ∧
      (LogTideClient.send_retry_loop opts transport logs.length attempt delay
          c).metrics.logs_sent = c.metrics.logs_sent := by
    intro opts attempt delay hatt
    rw [LogTideClient.send_retry_loop]
    rw [if_pos hatt]
    simp only [CircuitBreaker.read_state, hchk, hst, if_pos rfl,
      LogTideClient.send_retry_finish]
    simp [CircuitBreaker.read_state, hchk, hst]
  exact ⟨main, main c.options 0 _ (Nat.zero_le _)⟩

/-- C2 witness: a one-entry batch sent while the breaker reads OPEN is
dropped (`logs_dropped` +1, trips +1) and the transport is never called,
even though the transport would succeed. -/
theorem circuit_open_drops_batch_witness :
    ((demo_open_client.circuit_breaker.read_state demo_open_client.now).1
        = CircuitState.OPEN ∧
      0 < ([demo_entry] : List LogEntry).length) ∧
    (demo_open_client.send_logs_with_retry ok_transport
        [demo_entry]).metrics.logs_dropped
      = demo_open_client.metrics.logs_dropped + 1 ∧
    (demo_open_client.send_logs_with_retry ok_transport
        [demo_entry]).metrics.circuit_breaker_trips
      = demo_open_client.metrics.circuit_breaker_trips + 1 ∧
    (demo_open_client.send_logs_with_retry ok_transport
        [demo_entry]).transport_calls = demo_open_client.transport_calls := by
  have hopen : (demo_open_client.circuit_breaker.read_state
      demo_open_client.now).1 = CircuitState.OPEN := by
    norm_num [CircuitBreaker.read_state, CircuitBreaker.check_half_open,
      demo_open_client, demo_open_breaker, demo_client, LogTideClient.init,
      demo_options]
  have h := circuit_open_drops_batch ok_transport [demo_entry]
    demo_open_client hopen (by norm_num)
  exact ⟨⟨hopen, by norm_num⟩, h.2.1, h.2.2.1, h.2.2.2.1⟩

/-- Prepending one sleep of `delay` to the doubled-delay geometric schedule
gives the geometric schedule one step longer. -/
theorem geometric_sleeps (delay : ℚ) (n : Nat) :
    (List.range (n + 1)).map (fun k => delay * 2 ^ k)
      = delay :: (List.range n).map (fun k => delay * 2 * 2 ^ k) := by
  rw [List.range_succ_eq_map]
  simp only [List.map_cons, pow_zero, mul_one, List.map_map]
  congr 1
  apply List.map_congr_left
  intro k _
  simp only [Function.comp_apply, pow_succ]
  ring

/-- The retry loop under an always-failing transport and a breaker that
never opens: entering the loop at `attempt` with `n` retries remaining
(`attempt + n = max_retries`), a CLOSED breaker and enough threshold
headroom makes `n + 1` transport calls, counts `n + 1` errors and `n`
retries, drops the batch exactly once, leaves `logs_sent` and
`circuit_breaker_trips` unchanged, and sleeps the exponential schedule
`delay * 2 ^ k` for `k = 0 .. n - 1`. -/
theorem send_retry_loop_all_fail (opts : ClientOptions) (logsLen : Nat) :
    ∀ (n attempt : Nat) (delay : ℚ) (c : LogTideClient),
      attempt + n = opts.max_retries →
      c.circuit_breaker.state = CircuitState.CLOSED →
      c.circuit_breaker.failure_count + (n + 1) < c.circuit_breaker.threshold →
      (LogTideClient.send_retry_loop opts failing_transport logsLen attempt
          delay c).transport_calls = c.transport_calls + (n + 1) ∧
      (LogTideClient.send_retry_loop opts failing_transport logsLen attempt
          delay c).metrics.errors = c.metrics.errors + (n + 1) ∧
      (LogTideClient.send_retry_loop opts failing_transport logsLen attempt
          delay c).metrics.retries = c.metrics.retries + n ∧
      (LogTideClient.send_retry_loop opts failing_transport logsLen attempt
          delay c).metrics.logs_dropped = c.metrics.logs_dropped + logsLen ∧
      (LogTideClient.send_retry_loop opts failing_transport logsLen attempt
          delay c).metrics.logs_sent = c.metrics.logs_sent ∧
      (LogTideClient.send_retry_loop opts failing_transport logsLen attempt
          delay c).metrics.circuit_breaker_trips
        = c.metrics.circuit_breaker_trips ∧
      (LogTideClient.send_retry_loop opts failing_transport logsLen attempt
          delay c).sleeps
        = c.sleeps ++ (List.range n).map (fun k => delay * 2 ^ k) := by
  intro n
  induction n with
  | zero =>
    intro attempt delay c hatt hst hth
    have hmr : attempt ≤ opts.max_retries := by omega
    have hchk := check_half_open_of_ne_open c.circuit_breaker c.now
      (by rw [hst]; simp)
    have h1 : ¬ (attempt + 1 ≤ opts.max_retries) := by omega
    have h2 : attempt + 1 > opts.max_retries := by omega
    have h3 : ¬ (c.circuit_breaker.threshold
        ≤ c.circuit_breaker.failure_count + 1) := by omega
    rw [LogTideClient.send_retry_loop, if_pos hmr]
    simp [CircuitBreaker.read_state, hchk, hst, failing_transport,
      CircuitBreaker.record_failure, h1, h2, h3,
      LogTideClient.send_retry_finish, CircuitBreaker.check_half_open]
  | succ n ih =>
    intro attempt delay c hatt hst hth
    have hmr : attempt ≤ opts.max_retries := by omega
    have hchk := check_half_open_of_ne_open c.circuit_breaker c.now
      (by rw [hst]; simp)
    have h1 : attempt + 1 ≤ opts.max_retries := by omega
    have h2 : ¬ (attempt + 1 > opts.max_retries) := by omega
    have h3 : ¬ (c.circuit_breaker.threshold
        ≤ c.circuit_breaker.failure_count + 1) := by omega
    have step : LogTideClient.send_retry_loop opts failing_transport logsLen
        attempt delay c
      = LogTideClient.send_retry_loop opts failing_transport logsLen
          (attempt + 1) (delay * 2)
          { c with
            transport_calls := c.transport_calls + 1
            circuit_breaker := { c.circuit_breaker with
              failure_count := c.circuit_breaker.failure_count + 1
              last_failure_time := c.now }
            metrics := { c.metrics with
              errors := c.metrics.errors + 1
              retries := c.metrics.retries + 1 }
            now := c.now + delay
            sleeps := c.sleeps ++ [delay] } := by
      conv_lhs => rw [LogTideClient.send_retry_loop]
      rw [if_pos hmr]
      simp [CircuitBreaker.read_state, hchk, hst, failing_transport,
        CircuitBreaker.record_failure, h1, h2, h3]
    rw [step]
    obtain ⟨g1, g2, g3, g4, g5, g6, g7⟩ := ih (attempt + 1) (delay * 2)
      { c with
        transport_calls := c.transport_calls + 1
        circuit_breaker := { c.circuit_breaker with
          failure_count := c.circuit_breaker.failure_count + 1
          last_failure_time := c.now }
        metrics := { c.metrics with
          errors := c.metrics.errors + 1
          retries := c.metrics.retries + 1 }
        now := c.now + delay
        sleeps := c.sleeps ++ [delay] }
      (by omega) (by simp [hst]) (by simp; omega)
    rw [g1, g2, g3, g4, g5, g6, g7]
    refine ⟨by simp; omega, by simp; omega, by simp; omega,
      by simp, by simp, by simp, ?_⟩
    simp only [geometric_sleeps, List.append_assoc, List.cons_append,
      List.nil_append]

/-- C3: a non-empty batch sent through `_send_logs_with_retry` with a
transport failing on every attempt and a breaker that never opens
(`failure_count + max_retries + 1 < threshold` from CLOSED): the transport
is called exactly `max_retries + 1` times, the sleep before retry `k + 1`
is `retry_delay_ms / 1000 * 2 ^ k` seconds for `k = 0 .. max_retries - 1`
with no sleep after the last failure, `errors` grows by `max_retries + 1`,
`retries` by `max_retries`, `logs_dropped` by the batch size exactly once,
and `logs_sent` (and `circuit_breaker_trips`) are unchanged. -/
theorem transport_failure_exhausts_retries (logs : List LogEntry)
    (c : LogTideClient) (_hne : logs ≠ [])
    (hst : c.circuit_breaker.state = CircuitState.CLOSED)
    (hth : c.circuit_breaker.failure_count + (c.options.max_retries + 1)
      < c.circuit_breaker.threshold) :
    (c.send_logs_with_retry failing_transport logs).transport_calls
      = c.transport_calls + (c.options.max_retries + 1) ∧
    (c.send_logs_with_retry failing_transport logs).metrics.errors
      = c.metrics.errors + (c.options.max_retries + 1) ∧
    (c.send_logs_with_retry failing_transport logs).metrics.retries
      = c.metrics.retries + c.options.max_retries ∧
    (c.send_logs_with_retry failing_transport logs).metrics.logs_dropped
      = c.metrics.logs_dropped + logs.length ∧
    (c.send_logs_with_retry failing_transport logs).metrics.logs_sent
      = c.metrics.logs_sent ∧
    (c.send_logs_with_retry failing_transport logs).metrics.circuit_breaker_trips
      = c.metrics.circuit_breaker_trips ∧
    (c.send_logs_with_retry failing_transport logs).sleeps
      = c.sleeps ++ (List.range c.options.max_retries).map
          (fun k => (c.options.retry_delay_ms : ℚ) / 1000 * 2 ^ k) := by
  have h := send_retry_loop_all_fail c.options logs.length
    c.options.max_retries 0 ((c.options.retry_delay_ms : ℚ) / 1000) c
    (by omega) hst (by omega)
  simpa [LogTideClient.send_logs_with_retry] using h

/-- C3 witness: `max_retries = 2`, base delay 100 ms, one-entry batch:
3 transport calls, sleeps 0.1 s then 0.2 s, `errors = 3`, `retries = 2`,
`logs_dropped = 1`, `logs_sent = 0`. -/
theorem transport_failure_exhausts_retries_witness :
    (([demo_entry] : List LogEntry) ≠ [] ∧
     demo_fail_client.circuit_breaker.state = CircuitState.CLOSED ∧
     demo_fail_client.circuit_breaker.failure_count
        + (demo_fail_client.options.max_retries + 1)
       < demo_fail_client.circuit_breaker.threshold) ∧
    (demo_fail_client.send_logs_with_retry failing_transport
        [demo_entry]).transport_calls = 3 ∧
    (demo_fail_client.send_logs_with_retry failing_transport
        [demo_entry]).metrics.errors = 3 ∧
    (demo_fail_client.send_logs_with_retry failing_transport
        [demo_entry]).metrics.retries = 2 ∧
    (demo_fail_client.send_logs_with_retry failing_transport
        [demo_entry]).metrics.logs_dropped = 1 ∧
    (demo_fail_client.send_logs_with_retry failing_transport
        [demo_entry]).metrics.logs_sent = 0 ∧
    (demo_fail_client.send_logs_with_retry failing_transport
        [demo_entry]).sleeps = [(1 : ℚ)/10, (1 : ℚ)/5] := by
  have h := transport_failure_exhausts_retries [demo_entry] demo_fail_client
    (by simp) (by decide) (by decide)
  obtain ⟨h1, h2, h3, h4, h5, _h6, h7⟩ := h
  refine ⟨⟨by simp, by decide, by decide⟩, ?_, ?_, ?_, ?_, ?_, ?_⟩
  · rw [h1]; decide
  · rw [h2]; decide
  · rw [h3]; decide
  · rw [h4]; decide
  · rw [h5]; decide
  · rw [h7]
    norm_num [demo_fail_client, demo_fail_options, demo_options,
      LogTideClient.init, List.range_succ]

/-- C5: when a client that is not closed (and whose thread does not already
hold the buffer lock) logs while the buffer holds exactly
`max_buffer_size` entries, the call fails with `BufferFullError`, the entry
is not enqueued (buffer unchanged), and `logs_dropped` increases by exactly
one while the other counters are untouched. -/
theorem log_buffer_full_rejects (transport : Nat → Bool) (fresh_id : String)
    (e : LogEntry) (c : LogTideClient)
    (hclosed : c.closed = false) (hlock : c.buffer_lock_held = false)
    (hfull : c.buffer.length = c.options.max_buffer_size) :
    (c.log transport fresh_id e).1 = LogResult.buffer_full_error ∧
    (c.log transport fresh_id e).2.buffer = c.buffer ∧
    (c.log transport fresh_id e).2.metrics.logs_dropped
      = c.metrics.logs_dropped + 1 ∧
    (c.log transport fresh_id e).2.metrics.logs_sent = c.metrics.logs_sent ∧
    (c.log transport fresh_id e).2.metrics.errors = c.metrics.errors ∧
    (c.log transport fresh_id e).2.metrics.retries = c.metrics.retries := by
  simp only [LogTideClient.log, hclosed, hlock, Bool.false_eq_true, if_false,
    hfull, ge_iff_le, le_refl, if_true]
  simp

/-- C5 witness: a client whose capacity is zero rejects its first log. -/
theorem log_buffer_full_rejects_witness :
    (LogTideClient.init { demo_options with max_buffer_size := 0 }).closed = false ∧
    ((LogTideClient.init { demo_options with max_buffer_size := 0 }).log
        ok_transport "id" demo_entry).1 = LogResult.buffer_full_error := by
  refine ⟨by decide, ?_⟩
  exact (log_buffer_full_rejects ok_transport "id" demo_entry
    (LogTideClient.init { demo_options with max_buffer_size := 0 })
    (by decide) (by decide) (by decide)).1

/-- C9: once `closed` is set, every logging call (`log` and the five
leveled wrappers) returns silently with the client state — buffer, metrics
and all — completely unchanged. -/
theorem log_after_close_is_noop (transport : Nat → Bool) (fresh_id : String)
    (e : LogEntry) (service message : String) (md : List (String × String))
    (c : LogTideClient) (h : c.closed = true) :
    c.log transport fresh_id e = (LogResult.ok, c) ∧
    c.debug_log transport fresh_id service message md = (LogResult.ok, c) ∧
    c.info transport fresh_id service message md = (LogResult.ok, c) ∧
    c.warn transport fresh_id service message md = (LogResult.ok, c) ∧
    c.error_log transport fresh_id service message md = (LogResult.ok, c) ∧
    c.critical transport fresh_id service message md = (LogResult.ok, c) := by
  simp [LogTideClient.log, LogTideClient.debug_log, LogTideClient.info,
    LogTideClient.warn, LogTideClient.error_log, LogTideClient.critical, h]

/-- C9 witness: a closed concrete client ignores an `info` call. -/
theorem log_after_close_is_noop_witness :
    ({ demo_client with closed := true } : LogTideClient).closed = true ∧
    ({ demo_client with closed := true } : LogTideClient).info
        ok_transport "id" "svc" "msg" []
      = (LogResult.ok, { demo_client with closed := true }) :=
  ⟨by decide,
   (log_after_close_is_noop ok_transport "id" demo_entry "svc" "msg" []
      { demo_client with closed := true } (by decide)).2.2.1⟩

/-- C7: `with_trace_id` restores the previous trace id on every exit path
(the body may raise or not, and may itself mutate the trace id); the body
always observes the new trace id on entry (a body reading the trace id
behaves exactly as if it read `some tid`); and in particular a scope
started while the trace id is `"Y"` sees `"Y"` again after an inner
`with_trace_id "X"` scope exits. -/
theorem with_trace_id_scoping :
    (∀ (c : LogTideClient) (tid : String)
        (body : LogTideClient → LogTideClient × Bool),
      ((c.with_trace_id tid body).1).trace_id = c.trace_id) ∧
    (∀ (c : LogTideClient) (tid : String)
        (f : Option String → LogTideClient → LogTideClient × Bool),
      c.with_trace_id tid (fun s => f s.trace_id s)
        = c.with_trace_id tid (fun s => f (some tid) s)) ∧
    (∀ (cy : LogTideClient) (inner : LogTideClient → LogTideClient × Bool),
      cy.trace_id = some "Y" →
        ((cy.with_trace_id "X" inner).1).trace_id = some "Y") := by
  refine ⟨?_, ?_, ?_⟩
  · intro c tid body
    simp [LogTideClient.with_trace_id, LogTideClient.set_trace_id]
  · intro c tid f
    simp [LogTideClient.with_trace_id, LogTideClient.set_trace_id]
  · intro cy inner h
    simp [LogTideClient.with_trace_id, LogTideClient.set_trace_id, h]

/-- C7 witness: restoration at a concrete client whose trace id is `"Y"`,
with a body that raises after overwriting the trace id. -/
theorem with_trace_id_scoping_witness :
    ((({ demo_client with trace_id := some "Y" } : LogTideClient).with_trace_id
        "X" (fun s => (s.set_trace_id (some "Z"), true))).1).trace_id
      = some "Y" :=
  with_trace_id_scoping.2.2 { demo_client with trace_id := some "Y" }
    (fun s => (s.set_trace_id (some "Z"), true)) (by decide)

/-- C6 (code bug): with `batch_size = 3`, `max_buffer_size = 10` and an
always-succeeding transport, the third append reaches the batch size and
calls `flush` from inside the `with self._buffer_lock` block of `log`;
`flush` then re-acquires the same non-reentrant lock, so the third call
deadlocks: no flush completes, the transport is never called, and
`logs_sent` stays 0 — the buffer still holds all 3 entries. -/
theorem auto_flush_at_batch_size_deadlocks :
    ((((LogTideClient.init
          { demo_options with batch_size := 3, max_buffer_size := 10 }).log
            ok_transport "t1" demo_entry).2.log
            ok_transport "t2" demo_entry).2.log
            ok_transport "t3" demo_entry).1 = LogResult.deadlock ∧
    ((((LogTideClient.init
          { demo_options with batch_size := 3, max_buffer_size := 10 }).log
            ok_transport "t1" demo_entry).2.log
            ok_transport "t2" demo_entry).2.log
            ok_transport "t3" demo_entry).2.metrics.logs_sent = 0 ∧
    ((((LogTideClient.init
          { demo_options with batch_size := 3, max_buffer_size := 10 }).log
            ok_transport "t1" demo_entry).2.log
            ok_transport "t2" demo_entry).2.log
            ok_transport "t3" demo_entry).2.transport_calls = 0 ∧
    ((((LogTideClient.init
          { demo_options with batch_size := 3, max_buffer_size := 10 }).log
            ok_transport "t1" demo_entry).2.log
            ok_transport "t2" demo_entry).2.log
            ok_transport "t3" demo_entry).2.buffer.length = 3 := by
  decide

/-- C1 (code bug): `close` sets `_closed` before calling `flush`, and
`flush` returns immediately when `_closed` is set — so the "final flush" of
`close` is a no-op.  On a client holding one buffered entry, `close`
returns with the entry still in the buffer, the transport never called and
`logs_sent` still 0 (only the closed flag and timer change); a second
`close` is indeed a no-op. -/
theorem close_final_flush_is_noop :
    ({ demo_client with buffer := [demo_entry] } : LogTideClient).close
        ok_transport
      = some { demo_client with
                buffer := [demo_entry], closed := true,
                flush_timer_active := false } ∧
    (({ demo_client with
         buffer := [demo_entry], closed := true,
         flush_timer_active := false } : LogTideClient).close ok_transport
      = some { demo_client with
                buffer := [demo_entry], closed := true,
                flush_timer_active := false }) := by
  decide

end LogTide
